import Mathlib

/-!
Shallow embedding of `src/Browser/keywords/cookie.py` from
robotframework-browser: the `Cookie` keyword adapter (get_cookies,
get_cookie, add_cookie, delete_all_cookies, eat_all_cookies).

Modelling conventions:
* The remote gRPC service is not part of the adapter; each keyword takes
  the outcome of its single remote call as an explicit argument
  (`Except RemoteErr _`), so theorems quantify over all remote behaviours.
* Side effects (channel open/close, remote requests, logger calls) are
  recorded in an explicit event trace; each keyword returns
  `Except PyErr α × List Event`.
* Parsed JSON values are embedded directly: `json.loads(response.body)`
  yields the `body` field of `GetCookiesResponse` (the stdlib JSON parse
  itself is not adapter code); `json.dumps` is modelled by `jsonDumps`.
* Python `datetime` objects are identified by their defining epoch
  quantity: `datetime.fromtimestamp` / `datetime.timestamp` are mutually
  inverse, and the calendar rendering (which depends on the process-local
  timezone) is never inspected by the adapter.
-/

set_option autoImplicit false

namespace BrowserCookie

/-! ## Python integer literals: str(int) and int(str)

`Cookie._expiry` calls the Python builtin `int` on the expiry string and the
round-trip property needs `str` on integers; both builtins are modelled
here (ASCII digits, optional sign, surrounding whitespace, and single
underscores between digits, as accepted by Python 3 `int`). -/

/-- The ASCII digit character for `d < 10`. -/
def digitChar (d : Nat) : Char := Char.ofNat (48 + d)

/-- Decimal digits of `n`, least significant first (empty for `0`). -/
def natDigitsRev : Nat → List Nat
  | 0 => []
  | n + 1 => ((n + 1) % 10) :: natDigitsRev ((n + 1) / 10)
decreasing_by exact Nat.div_lt_self (Nat.succ_pos n) (by decide)

/-- Characters of Python `str(n)` for a natural number. -/
def natLit (n : Nat) : List Char :=
  if n = 0 then ['0'] else ((natDigitsRev n).reverse).map digitChar

/-- Characters of Python `str(n)` for an integer. -/
def intLit (n : Int) : List Char :=
  if n < 0 then '-' :: natLit n.natAbs else natLit n.natAbs

/-- Python `str` applied to an integer. -/
def pyStrInt (n : Int) : String := ⟨intLit n⟩

/-- Accumulating digit scanner of Python `int(str)`: digits, with a single
underscore allowed only between two digits. `none` models `ValueError`. -/
def scanDigits : Nat → List Char → Option Nat
  | acc, [] => some acc
  | acc, c :: cs =>
    if c.isDigit then scanDigits (acc * 10 + (c.toNat - 48)) cs
    else if c = '_' then
      match cs with
      | c2 :: _ => if c2.isDigit then scanDigits acc cs else none
      | [] => none
    else none

/-- Unsigned part of Python `int(str)`: nonempty, starts with a digit. -/
def parseUNat : List Char → Option Nat
  | [] => none
  | c :: cs => if c.isDigit then scanDigits 0 (c :: cs) else none

/-- Strip leading and trailing whitespace (Python `int` ignores it). -/
def stripWs (cs : List Char) : List Char :=
  ((cs.dropWhile Char.isWhitespace).reverse.dropWhile Char.isWhitespace).reverse

/-- Sign handling of Python `int(str)`, applied after whitespace removal. -/
def pyIntSigned : List Char → Option Int
  | [] => none
  | c :: rest =>
    if c = '-' then (parseUNat rest).map (fun (m : Nat) => -(m : Int))
    else if c = '+' then (parseUNat rest).map (fun (m : Nat) => (m : Int))
    else (parseUNat (c :: rest)).map (fun (m : Nat) => (m : Int))

/-- Python builtin `int` on a string: `some n` on success, `none` models
the `ValueError` that `Cookie._expiry` catches. -/
def pyIntParse (s : String) : Option Int :=
  pyIntSigned (stripWs s.data)

/-! ## Data model -/

/-- A value inside a cookie JSON object as parsed by `json.loads`
(cookie fields are strings, booleans, or integral numbers). -/
inductive JsonVal where
  | str (s : String)
  | int (n : Int)
  | bool (b : Bool)
deriving DecidableEq, Repr

/-- A parsed cookie JSON object: keys in insertion order. `json.loads`
produces unique keys, matching Python `dict` semantics. -/
abbrev CookieRecord := List (String × JsonVal)

/-- Python `dict` subscript: the value stored at `k`, if present. -/
def dictGet (d : CookieRecord) (k : String) : Option JsonVal :=
  (d.find? (fun kv => kv.1 == k)).map (fun kv => kv.2)

/-- Python `dict` assignment `d[k] = v`: updates in place, preserving
insertion order, or appends a new key. -/
def dictSet (d : CookieRecord) (k : String) (v : JsonVal) : CookieRecord :=
  if d.any (fun kv => kv.1 == k) then
    d.map (fun kv => if kv.1 == k then (k, v) else kv)
  else d ++ [(k, v)]

/-- Python `str()` of a cookie value, as interpolated by an f-string. -/
def JsonVal.pyToStr : JsonVal → String
  | .str s => s
  | .int n => pyStrInt n
  | .bool b => if b then "True" else "False"

/-- A Python `datetime` value, identified by its epoch quantity.
`datetime.fromtimestamp` builds one from epoch seconds and
`datetime.timestamp` reads the same quantity back; the calendar rendering
(local-timezone dependent) is never inspected by the adapter. -/
structure PyDateTime where
  epoch : Int
deriving DecidableEq, Repr

/-- Python `datetime.fromtimestamp` on an integral epoch. -/
def datetime.fromtimestamp (n : Int) : PyDateTime := ⟨n⟩

/-- Python `datetime.timestamp()`: epoch seconds of the datetime. -/
def PyDateTime.timestamp (d : PyDateTime) : Int := d.epoch

/-- A value of the returned dot dictionary: either a JSON value copied
through, or the `datetime` decoded from the `expires` field. -/
inductive DotVal where
  | plain (v : JsonVal)
  | datetime (d : PyDateTime)
deriving DecidableEq, Repr

/-- A Robot Framework `DotDict` as built by `Cookie._cookie_as_dot_dict`. -/
abbrev DotDict := List (String × DotVal)

/-- Modelled from the spec: `CookieType` lives in
`Browser/utils/data_types.py`, which is not under `src/`; the spec defines
it as the return-shape selector enumeration \x7bdictionary, string\x7d. -/
inductive CookieType where
  | dictionary
  | string
deriving DecidableEq, Repr

/-- A gRPC-level error raised by a stub call, carried by its message. -/
abbrev RemoteErr := String

/-- A Python exception escaping a keyword. -/
inductive PyErr where
  | valueError (msg : String)
  | keyError (key : String)
  | typeError (msg : String)
  | dateError (msg : String)
  | remote (e : RemoteErr)
deriving DecidableEq, Repr

/-- A remote request issued on the gRPC channel, as named in
`playwright.proto`; `addCookie` carries the JSON request body. -/
inductive RemoteReq where
  | getCookies
  | addCookie (body : String)
  | deleteAllCookies
deriving DecidableEq, Repr

/-- An observable side effect of a keyword invocation. -/
inductive Event where
  | channelOpen
  | channelClose
  | remoteCall (r : RemoteReq)
  | logDebug (msg : String)
  | logInfo (msg : String)
  | logInfoHtml (msg : String)
  | logWarn (msg : String)
deriving DecidableEq, Repr

/-- Response of the remote `GetCookies` call: its `log` field and the
result of `json.loads(response.body)` (the parsed cookie list). -/
structure GetCookiesResponse where
  log : String
  body : List CookieRecord
deriving DecidableEq, Repr

/-- Response of `AddCookie` / `DeleteAllCookies`: only `log` is used. -/
structure LogResponse where
  log : String
deriving DecidableEq, Repr

/-- Modelled from the spec: `self.playwright.grpc_channel()` (the
`Browser.playwright` module is not under `src/`) is a context manager
yielding a stub; per the spec it opens a scoped channel handle, the stub
issues one request, and the handle is released on all exit paths, also
when the call or the body raises. -/
def grpc_call {α β : Type} (r : RemoteReq) (outcome : Except RemoteErr α)
    (onOk : α → Except PyErr β × List Event) : Except PyErr β × List Event :=
  match outcome with
  | .error e => (.error (.remote e), [.channelOpen, .remoteCall r, .channelClose])
  | .ok a =>
    let res := onOk a
    (res.1, [.channelOpen, .remoteCall r] ++ res.2 ++ [.channelClose])

/-- Sequential effectful map: stops at the first raised exception,
matching a Python `for` loop that appends to a list. -/
def mapExcept {α β : Type} (f : α → Except PyErr β) : List α → Except PyErr (List β)
  | [] => .ok []
  | a :: as =>
    match f a with
    | .error e => .error e
    | .ok b =>
      match mapExcept f as with
      | .error e => .error e
      | .ok bs => .ok (b :: bs)

namespace Cookie

/-! ## The `Cookie` keyword class -/

/-- Model of `Cookie._get_cookies`: one `GetCookies` request inside a scoped
channel; returns the response together with its parsed body. -/
def _get_cookies (remote : Except RemoteErr GetCookiesResponse) :
    Except PyErr (GetCookiesResponse × List CookieRecord) × List Event :=
  grpc_call .getCookies remote (fun resp => (.ok (resp, resp.body), []))

/-- Model of `Cookie._cookie_as_string`: the f-string `name=value` for one record;
a missing key models Python's `KeyError`. -/
def _cookie_as_string (c : CookieRecord) : Except PyErr String :=
  match dictGet c "name" with
  | none => .error (.keyError "name")
  | some n =>
    match dictGet c "value" with
    | none => .error (.keyError "value")
    | some v => .ok (n.pyToStr ++ "=" ++ v.pyToStr)

/-- Model of `Cookie._format_cookies_as_string`: `"; ".join` of the per-record
`name=value` pairs, in collection order. -/
def _format_cookies_as_string (cs : List CookieRecord) : Except PyErr String :=
  match mapExcept _cookie_as_string cs with
  | .error e => .error e
  | .ok pairs => .ok (String.intercalate "; " pairs)

/-- Conversion of one entry by `Cookie._cookie_as_dot_dict`: the key
`"expires"` is decoded with `datetime.fromtimestamp` (Python `bool` is an
`int` subclass, so it is accepted; a string raises `TypeError`), every
other key is copied through. -/
def dotVal (key : String) (v : JsonVal) : Except PyErr DotVal :=
  if key = "expires" then
    match v with
    | .int n => .ok (.datetime (datetime.fromtimestamp n))
    | .bool b => .ok (.datetime (datetime.fromtimestamp (if b then 1 else 0)))
    | .str _ => .error (.typeError "an integer is required")
  else .ok (.plain v)

/-- Model of `Cookie._cookie_as_dot_dict`: rebuilds the record key by key in
insertion order, decoding `expires`. -/
def _cookie_as_dot_dict (c : CookieRecord) : Except PyErr DotDict :=
  mapExcept (fun kv => (dotVal kv.1 kv.2).map (fun v => (kv.1, v))) c

/-- Model of `Cookie._format_cookies_as_dot_dict`: dot-dict of every record. -/
def _format_cookies_as_dot_dict (cs : List CookieRecord) : Except PyErr (List DotDict) :=
  mapExcept _cookie_as_dot_dict cs

/-- Return value of `get_cookies` (`Union[List[DotDict], str]`). -/
inductive GetCookiesReturn where
  | dicts (l : List DotDict)
  | str (s : String)
deriving DecidableEq, Repr

/-- Model of `Cookie.get_cookies`: one remote `GetCookies`; if the response's `log`
field is falsy the keyword logs "No cookies found." and returns the empty
list, otherwise it logs the `log` field and formats the parsed body per
`return_type`. -/
def get_cookies (remote : Except RemoteErr GetCookiesResponse)
    (return_type : CookieType) : Except PyErr GetCookiesReturn × List Event :=
  match _get_cookies remote with
  | (.error e, t) => (.error e, t)
  | (.ok (resp, cookies), t) =>
    if resp.log = "" then
      (.ok (.dicts []), t ++ [.logInfo "No cookies found."])
    else
      let t := t ++ [.logInfo ("Found cookies: " ++ resp.log)]
      if return_type = CookieType.dictionary then
        match _format_cookies_as_dot_dict cookies with
        | .error e => (.error e, t)
        | .ok ds => (.ok (.dicts ds), t)
      else
        match _format_cookies_as_string cookies with
        | .error e => (.error e, t)
        | .ok s => (.ok (.str s), t)

/-- Return value of `get_cookie` (`Union[DotDict, str]`). -/
inductive GetCookieReturn where
  | dict (d : DotDict)
  | str (s : String)
deriving DecidableEq, Repr

/-- Python `==` between a cookie value and a keyword-argument string:
equal strings compare equal, any non-string value compares unequal. -/
def nameEq (v : JsonVal) (s : String) : Bool :=
  match v with
  | .str t => t == s
  | _ => false

/-- Body of the loop match in `Cookie.get_cookie`: render the matched
record per `return_type`. -/
def render_cookie (return_type : CookieType) (c : CookieRecord) :
    Except PyErr GetCookieReturn :=
  if return_type = CookieType.dictionary then
    (_cookie_as_dot_dict c).map .dict
  else (_cookie_as_string c).map .str

/-- Linear scan of `Cookie.get_cookie`: first record whose `"name"` value
equals the argument wins; reading a record without a `"name"` key raises
`KeyError`; exhaustion raises the not-found `ValueError`. -/
def find_cookie (target : String) (return_type : CookieType) :
    List CookieRecord → Except PyErr GetCookieReturn
  | [] => .error (.valueError ("Cookie with name " ++ target ++ " is not found."))
  | c :: rest =>
    match dictGet c "name" with
    | none => .error (.keyError "name")
    | some v =>
      if nameEq v target then render_cookie return_type c
      else find_cookie target return_type rest

/-- Model of `Cookie.get_cookie`: one remote `GetCookies`, then the local
linear scan (the response's `log` field is ignored here). -/
def get_cookie (remote : Except RemoteErr GetCookiesResponse)
    (cookie : String) (return_type : CookieType) :
    Except PyErr GetCookieReturn × List Event :=
  match _get_cookies remote with
  | (.error e, t) => (.error e, t)
  | (.ok (_, cookies), t) => (find_cookie cookie return_type cookies, t)

end Cookie

/-! ## JSON serialization (`json.dumps`) for the AddCookie request body -/

/-- Lowercase hexadecimal digit. -/
def hexDigit (n : Nat) : Char :=
  if n < 10 then Char.ofNat (48 + n) else Char.ofNat (87 + n)

/-- Four-digit hexadecimal rendering used in `\uXXXX` escapes. -/
def hex4 (n : Nat) : String :=
  ⟨[hexDigit (n / 4096 % 16), hexDigit (n / 256 % 16),
    hexDigit (n / 16 % 16), hexDigit (n % 16)]⟩

/-- Escaping of one character by `json.dumps` (default `ensure_ascii`). -/
def jsonEscapeChar (c : Char) : String :=
  if c = '"' then "\\\""
  else if c = '\\' then "\\\\"
  else if c = '\n' then "\\n"
  else if c = '\t' then "\\t"
  else if c = '\r' then "\\r"
  else if c.toNat = 8 then "\\b"
  else if c.toNat = 12 then "\\f"
  else if c.toNat < 32 then "\\u" ++ hex4 c.toNat
  else if c.toNat < 127 then ⟨[c]⟩
  else if c.toNat < 65536 then "\\u" ++ hex4 c.toNat
  else
    "\\u" ++ hex4 (55296 + (c.toNat - 65536) / 1024)
      ++ "\\u" ++ hex4 (56320 + (c.toNat - 65536) % 1024)

/-- JSON string-body escaping. -/
def jsonEscape (s : String) : String :=
  String.join (s.data.map jsonEscapeChar)

/-- JSON rendering of one cookie value. -/
def JsonVal.dumps : JsonVal → String
  | .str s => "\"" ++ jsonEscape s ++ "\""
  | .int n => pyStrInt n
  | .bool b => if b then "true" else "false"

/-- Python `json.dumps` on the flat params dict (default separators). -/
def jsonDumps (ps : CookieRecord) : String :=
  "\x7b" ++ String.intercalate ", "
    (ps.map (fun kv => "\"" ++ jsonEscape kv.1 ++ "\": " ++ kv.2.dumps)) ++ "\x7d"

/-! ## add_cookie, delete_all_cookies, eat_all_cookies -/

/-- The named arguments of `Cookie.add_cookie` (`None` = not passed). -/
structure AddCookieArgs where
  name : String
  value : String
  url : Option String := none
  domain : Option String := none
  path : Option String := none
  expires : Option String := none
  httpOnly : Option Bool := none
  secure : Option Bool := none
  sameSite : Option String := none
deriving DecidableEq, Repr

/-- Entry of the params dict for one optional argument. -/
def optEntry (k : String) (v : Option JsonVal) : CookieRecord :=
  match v with
  | none => []
  | some x => [(k, x)]

/-- Modelled from the spec: `locals_to_params` lives in
`Browser/utils/meta_python.py`, which is not under `src/`; per the spec
the wire payload is `\x7bname, value, url?, domain?, path?, expires?,
httpOnly?, secure?, sameSite?\x7d`, the optional keys present exactly when
the argument was supplied. -/
def locals_to_params (a : AddCookieArgs) : CookieRecord :=
  [("name", .str a.name), ("value", .str a.value)]
    ++ optEntry "url" (a.url.map .str)
    ++ optEntry "domain" (a.domain.map .str)
    ++ optEntry "path" (a.path.map .str)
    ++ optEntry "expires" (a.expires.map .str)
    ++ optEntry "httpOnly" (a.httpOnly.map .bool)
    ++ optEntry "secure" (a.secure.map .bool)
    ++ optEntry "sameSite" (a.sameSite.map .str)

namespace Cookie

/-- Model of `Cookie._expiry`: try Python `int(expiry)` first; only on its
`ValueError` fall back to `convert_date(expiry, result_format="epoch")`
truncated to an integer. The Robot Framework `DateTime.convert_date`
utility is third-party code, so it enters as the parameter `conv`
(`.error` = the utility raises); theorems quantify over it. -/
def _expiry (conv : String → Except String Int) (expiry : String) :
    Except String Int :=
  match pyIntParse expiry with
  | some n => .ok n
  | none => conv expiry

/-- Expiry step of `Cookie.add_cookie` on the params dict
(`if expires: params["expires"] = self._expiry(expires)`): a truthy
`expires` — a supplied, non-empty string — is converted before any other
side effect; an untruthy one leaves the params unchanged. -/
def add_cookie_params (conv : String → Except String Int)
    (params : CookieRecord) : Option String → Except String CookieRecord
  | none => .ok params
  | some e =>
    if e = "" then .ok params
    else (_expiry conv e).map (fun n => dictSet params "expires" (.int n))

/-- Remote phase of `Cookie.add_cookie`: debug-log the JSON body, then one
`AddCookie` request in a scoped channel, logging the response's `log`
inside the channel scope. -/
def add_cookie_send (remote : Except RemoteErr LogResponse)
    (params : CookieRecord) : Except PyErr Unit × List Event :=
  let body := jsonDumps params
  let res := grpc_call (.addCookie body) remote (fun r => (.ok (), [.logInfo r.log]))
  (res.1, .logDebug ("Adding cookie: " ++ body) :: res.2)

/-- Model of `Cookie.add_cookie`: build the params dict, run the expiry
step (whose date-parse error propagates, skipping the remote phase
entirely), then the remote phase. -/
def add_cookie (conv : String → Except String Int)
    (remote : Except RemoteErr LogResponse) (a : AddCookieArgs) :
    Except PyErr Unit × List Event :=
  match add_cookie_params conv (locals_to_params a) a.expires with
  | .error msg => (.error (.dateError msg), [])
  | .ok params => add_cookie_send remote params

/-- Model of `Cookie.delete_all_cookies`: one `DeleteAllCookies` request
in a scoped channel; the response's `log` is logged after the channel
scope is left. -/
def delete_all_cookies (remote : Except RemoteErr LogResponse) :
    Except PyErr Unit × List Event :=
  let res := grpc_call .deleteAllCookies remote (fun r => (.ok r.log, []))
  match res.1 with
  | .error e => (.error e, res.2)
  | .ok lg => (.ok (), res.2 ++ [.logInfo lg])

/-- The HTML snippet logged by `Cookie.eat_all_cookies`. -/
def eatAllCookiesHtml : String :=
  "\n        <iframe\n        width=\"560\" height=\"315\"\n        src=\"https://www.youtube.com/embed/I5e6ftNpGsU\"\n        frameborder=\"0\" allow=\"accelerometer; autoplay; encrypted-media; gyroscope; picture-in-picture\"\n        allowfullscreen>\n        </iframe>"

/-- Model of `Cookie.eat_all_cookies`: delegates to `delete_all_cookies`,
then logs an HTML info message and a warning. -/
def eat_all_cookies (remote : Except RemoteErr LogResponse) :
    Except PyErr Unit × List Event :=
  match delete_all_cookies remote with
  | (.error e, t) => (.error e, t)
  | (.ok _, t) =>
    (.ok (), t ++ [.logInfoHtml eatAllCookiesHtml,
                   .logWarn "Cookie monster ate all cookies!!"])

end Cookie

/-! ## Lemmas: decimal print/parse round trip -/

theorem digitChar_isDigit {d : Nat} (h : d < 10) : (digitChar d).isDigit = true := by
  interval_cases d <;> decide

theorem digitChar_toNat {d : Nat} (h : d < 10) : (digitChar d).toNat - 48 = d := by
  interval_cases d <;> decide

theorem digitChar_ne_dash {d : Nat} (h : d < 10) : digitChar d ≠ '-' := by
  interval_cases d <;> decide

theorem digitChar_ne_plus {d : Nat} (h : d < 10) : digitChar d ≠ '+' := by
  interval_cases d <;> decide

theorem digitChar_not_ws {d : Nat} (h : d < 10) : (digitChar d).isWhitespace = false := by
  interval_cases d <;> decide

theorem natDigitsRev_lt : ∀ (n : Nat), ∀ d ∈ natDigitsRev n, d < 10 := by
  intro n
  induction n using Nat.strong_induction_on with
  | _ n ih =>
    match n with
    | 0 => simp [natDigitsRev]
    | m + 1 =>
      rw [natDigitsRev]
      intro d hd
      rcases List.mem_cons.mp hd with h | h
      · subst h; exact Nat.mod_lt _ (by decide)
      · exact ih ((m + 1) / 10) (Nat.div_lt_self (Nat.succ_pos m) (by decide)) d h

theorem natDigitsRev_ne_nil {n : Nat} (h : n ≠ 0) : natDigitsRev n ≠ [] := by
  match n with
  | 0 => exact absurd rfl h
  | m + 1 => rw [natDigitsRev]; simp

theorem natDigitsRev_foldr : ∀ (n acc : Nat),
    (natDigitsRev n).foldr (fun d a => a * 10 + d) acc
      = acc * 10 ^ (natDigitsRev n).length + n := by
  intro n
  induction n using Nat.strong_induction_on with
  | _ n ih =>
    match n with
    | 0 => intro acc; simp [natDigitsRev]
    | m + 1 =>
      intro acc
      rw [natDigitsRev]
      simp only [List.foldr_cons, List.length_cons]
      rw [ih ((m + 1) / 10) (Nat.div_lt_self (Nat.succ_pos m) (by decide)) acc]
      rw [pow_succ, ← mul_assoc]
      omega

/-- Every character of `natLit n` is an ASCII digit character. -/
theorem natLit_mem {n : Nat} : ∀ c ∈ natLit n, ∃ d, d < 10 ∧ c = digitChar d := by
  intro c hc
  unfold natLit at hc
  by_cases h : n = 0
  · simp [h] at hc
    exact ⟨0, by decide, by rw [hc]; decide⟩
  · simp [h] at hc
    obtain ⟨d, hd, hcd⟩ := hc
    exact ⟨d, natDigitsRev_lt n d hd, hcd.symm⟩

theorem natLit_ne_nil (n : Nat) : natLit n ≠ [] := by
  unfold natLit
  by_cases h : n = 0
  · simp [h]
  · simp [h]
    exact natDigitsRev_ne_nil h

theorem scanDigits_nil (acc : Nat) : scanDigits acc [] = some acc := rfl

theorem scanDigits_cons_digit (acc : Nat) {c : Char} (hc : c.isDigit = true)
    (rest : List Char) :
    scanDigits acc (c :: rest) = scanDigits (acc * 10 + (c.toNat - 48)) rest := by
  rw [scanDigits.eq_def]
  simp [hc]

theorem scanDigits_all_digits : ∀ (cs : List Char), (∀ c ∈ cs, c.isDigit = true) →
    ∀ acc, scanDigits acc cs
      = some (cs.foldl (fun a c => a * 10 + (c.toNat - 48)) acc) := by
  intro cs
  induction cs with
  | nil => intro _ acc; simp [scanDigits_nil]
  | cons c rest ih =>
    intro h acc
    have hc : c.isDigit = true := h c (List.mem_cons_self c rest)
    rw [scanDigits_cons_digit acc hc rest]
    rw [ih (fun x hx => h x (List.mem_cons_of_mem c hx))]
    simp

theorem foldl_digitChar_map : ∀ (l : List Nat), (∀ d ∈ l, d < 10) →
    ∀ acc, (l.map digitChar).foldl (fun a c => a * 10 + (c.toNat - 48)) acc
      = l.foldl (fun a d => a * 10 + d) acc := by
  intro l
  induction l with
  | nil => intro _ acc; rfl
  | cons d rest ih =>
    intro h acc
    have hd : d < 10 := h d (List.mem_cons_self d rest)
    simp only [List.map_cons, List.foldl_cons]
    rw [digitChar_toNat hd, ih (fun x hx => h x (List.mem_cons_of_mem d hx))]

theorem parseUNat_natLit (n : Nat) : parseUNat (natLit n) = some n := by
  obtain ⟨c, rest, hcs⟩ := List.exists_cons_of_ne_nil (natLit_ne_nil n)
  have hdig : ∀ x ∈ natLit n, x.isDigit = true := by
    intro x hx
    obtain ⟨d, hd, hxd⟩ := natLit_mem x hx
    rw [hxd]; exact digitChar_isDigit hd
  rw [hcs, parseUNat]
  rw [hdig c (by rw [hcs]; exact List.mem_cons_self c rest)]
  simp only [if_true]
  rw [← hcs, scanDigits_all_digits (natLit n) hdig 0]
  by_cases h : n = 0
  · subst h
    have h0 : natLit 0 = ['0'] := rfl
    rw [h0]; rfl
  · have hlit : natLit n = ((natDigitsRev n).reverse).map digitChar := by
      unfold natLit; simp [h]
    rw [hlit, foldl_digitChar_map ((natDigitsRev n).reverse)
      (fun d hd => natDigitsRev_lt n d (List.mem_reverse.mp hd)) 0]
    rw [List.foldl_reverse]
    have hfr := natDigitsRev_foldr n 0
    simp only [zero_mul, zero_add] at hfr
    rw [show (fun (x : Nat) (y : Nat) => y * 10 + x) = (fun d a => a * 10 + d) from rfl]
    rw [hfr]

theorem dropWhile_all_false {p : Char → Bool} : ∀ (cs : List Char),
    (∀ c ∈ cs, p c = false) → cs.dropWhile p = cs := by
  intro cs h
  cases cs with
  | nil => rfl
  | cons c rest =>
    rw [List.dropWhile_cons, h c (List.mem_cons_self c rest)]
    simp

theorem stripWs_eq_self (cs : List Char) (h : ∀ c ∈ cs, c.isWhitespace = false) :
    stripWs cs = cs := by
  unfold stripWs
  rw [dropWhile_all_false cs h]
  rw [dropWhile_all_false cs.reverse (fun c hc => h c (List.mem_reverse.mp hc))]
  exact List.reverse_reverse cs

theorem intLit_not_ws (n : Int) : ∀ c ∈ intLit n, c.isWhitespace = false := by
  intro c hc
  unfold intLit at hc
  by_cases h : n < 0
  · simp [h] at hc
    rcases hc with h1 | h1
    · rw [h1]; decide
    · obtain ⟨d, hd, hcd⟩ := natLit_mem c h1
      rw [hcd]; exact digitChar_not_ws hd
  · simp [h] at hc
    obtain ⟨d, hd, hcd⟩ := natLit_mem c hc
    rw [hcd]; exact digitChar_not_ws hd

/-- Python `int(str(n)) = n`: parsing the decimal rendering of any integer
recovers that integer. -/
theorem pyIntParse_pyStrInt (n : Int) : pyIntParse (pyStrInt n) = some n := by
  have hdata : (pyStrInt n).data = intLit n := rfl
  rw [pyIntParse, hdata, stripWs_eq_self (intLit n) (intLit_not_ws n)]
  by_cases h : n < 0
  · have hlit : intLit n = '-' :: natLit n.natAbs := by unfold intLit; simp [h]
    rw [hlit, pyIntSigned]
    rw [if_pos rfl, parseUNat_natLit]
    have habs : -((n.natAbs : Int)) = n := by omega
    simp only [Option.map_some']
    rw [habs]
  · have hlit : intLit n = natLit n.natAbs := by unfold intLit; simp [h]
    obtain ⟨c, rest, hcs⟩ := List.exists_cons_of_ne_nil (natLit_ne_nil n.natAbs)
    obtain ⟨d, hd, hcd⟩ := natLit_mem c (by rw [hcs]; exact List.mem_cons_self c rest)
    rw [hlit, hcs, pyIntSigned]
    rw [if_neg (by rw [hcd]; exact digitChar_ne_dash hd)]
    rw [if_neg (by rw [hcd]; exact digitChar_ne_plus hd)]
    rw [← hcs, parseUNat_natLit]
    have habs : ((n.natAbs : Int)) = n := by omega
    simp only [Option.map_some']
    rw [habs]

/-! ## Helpers for claim statements -/

/-- Channel-discipline events: handle open, handle release, requests. -/
def Event.isChannel : Event → Bool
  | .channelOpen => true
  | .channelClose => true
  | .remoteCall _ => true
  | _ => false

/-- Remote requests only. -/
def Event.isRemote : Event → Bool
  | .remoteCall _ => true
  | _ => false

/-- Informational log events only. -/
def Event.isInfo : Event → Bool
  | .logInfo _ => true
  | _ => false

/-- Record matcher of the `get_cookie` scan: the record's `"name"` value
is the string `target`. -/
def hasName (target : String) (r : CookieRecord) : Bool :=
  dictGet r "name" == some (JsonVal.str target)

/-- The expiry argument, if supplied and truthy, converts successfully
(the success precondition of the remote phase of `add_cookie`). -/
def expiryOk (conv : String → Except String Int) (a : AddCookieArgs) : Prop :=
  match a.expires with
  | none => True
  | some e => e = "" ∨ ∃ n, Cookie._expiry conv e = .ok n

/-- The `name=value` rendering of one record, total under the data-model
invariant that `name` and `value` are present. -/
def nameValueStr (r : CookieRecord) : String :=
  ((dictGet r "name").getD (.str "")).pyToStr ++ "="
    ++ ((dictGet r "value").getD (.str "")).pyToStr

theorem cookie_as_string_of_keys {r : CookieRecord} {nv vv : JsonVal}
    (hn : dictGet r "name" = some nv) (hv : dictGet r "value" = some vv) :
    Cookie._cookie_as_string r = .ok (nameValueStr r) := by
  rw [Cookie._cookie_as_string, hn, hv]
  rw [nameValueStr, hn, hv]
  rfl

theorem mapExcept_cookie_as_string (cookies : List CookieRecord)
    (h : ∀ r ∈ cookies, ∃ nv vv,
      dictGet r "name" = some nv ∧ dictGet r "value" = some vv) :
    mapExcept Cookie._cookie_as_string cookies = .ok (cookies.map nameValueStr) := by
  induction cookies with
  | nil => rfl
  | cons c rest ih =>
    obtain ⟨nv, vv, hn, hv⟩ := h c (List.mem_cons_self c rest)
    rw [mapExcept, cookie_as_string_of_keys hn hv,
      ih (fun r hr => h r (List.mem_cons_of_mem c hr))]
    simp

/-! ## Claims -/

/-- C5: for every list of cookie records (each carrying the mandatory
`name` and `value` fields), string-mode output is the `"; "`-joined
sequence of `name=value` pairs in collection order, using only the name
and value fields of each record; on the records
`[\x7bname:"a",value:"1"\x7d, \x7bname:"b",value:"2"\x7d]` it is `"a=1; b=2"`. -/
theorem format_cookies_as_string_spec :
    (∀ cookies : List CookieRecord,
      (∀ r ∈ cookies, ∃ nv vv,
        dictGet r "name" = some nv ∧ dictGet r "value" = some vv) →
      Cookie._format_cookies_as_string cookies
        = .ok (String.intercalate "; " (cookies.map nameValueStr))) ∧
    Cookie._format_cookies_as_string
        [[("name", .str "a"), ("value", .str "1")],
         [("name", .str "b"), ("value", .str "2")]] = .ok "a=1; b=2" := by
  constructor
  · intro cookies h
    rw [Cookie._format_cookies_as_string, mapExcept_cookie_as_string cookies h]
  · rfl

/-- Witness for C5 at the records of the claim. -/
theorem format_cookies_as_string_spec_witness :
    Cookie._format_cookies_as_string
        [[("name", .str "a"), ("value", .str "1")],
         [("name", .str "b"), ("value", .str "2")]]
      = .ok (String.intercalate "; "
          ([[("name", .str "a"), ("value", .str "1")],
            [("name", .str "b"), ("value", .str "2")]].map nameValueStr)) :=
  format_cookies_as_string_spec.1
    [[("name", .str "a"), ("value", .str "1")],
     [("name", .str "b"), ("value", .str "2")]]
    (by
      intro r hr
      simp only [List.mem_cons, List.not_mem_nil, or_false] at hr
      rcases hr with rfl | rfl
      · exact ⟨.str "a", .str "1", rfl, rfl⟩
      · exact ⟨.str "b", .str "2", rfl, rfl⟩)

/-- C3: `Cookie._expiry` attempts Python integer parsing first and only on
its failure falls back to the date-conversion utility; a string that is a
valid integer is taken as epoch seconds whatever the date parser would
say, and the value placed in the `AddCookie` request is that integer. -/
theorem expiry_integer_first :
    (∀ (conv : String → Except String Int) (s : String) (n : Int),
        pyIntParse s = some n → Cookie._expiry conv s = .ok n) ∧
    (∀ (conv : String → Except String Int) (s : String),
        pyIntParse s = none → Cookie._expiry conv s = conv s) ∧
    (∀ (conv : String → Except String Int) (remote : Except RemoteErr LogResponse)
        (a : AddCookieArgs) (e : String) (n : Int),
        a.expires = some e → e ≠ "" → pyIntParse e = some n →
        (Cookie.add_cookie conv remote a).2.filter Event.isRemote
          = [.remoteCall (.addCookie
              (jsonDumps (dictSet (locals_to_params a) "expires" (.int n))))]) := by
  refine ⟨?_, ?_, ?_⟩
  · intro conv s n h
    rw [Cookie._expiry, h]
  · intro conv s h
    rw [Cookie._expiry, h]
  · intro conv remote a e n ha hne h
    rw [Cookie.add_cookie, ha]
    rw [Cookie.add_cookie_params, if_neg hne]
    rw [Cookie._expiry, h]
    cases remote <;>
      simp [Cookie.add_cookie_send, grpc_call, Event.isRemote, Except.map]

/-- Witness for C3: the docstring's epoch example is taken as an integer
even though the date parser would reject or reinterpret it, and that
integer is what the request carries. -/
theorem expiry_integer_first_witness :
    Cookie._expiry (fun s => .error s) "1822137695" = .ok 1822137695 ∧
    Cookie._expiry (fun s => .error s) "tomorrow" = .error "tomorrow" ∧
    (Cookie.add_cookie (fun s => .error s) (.ok ⟨"ok"⟩)
        { name := "foo", value := "bar", url := some "http://example.com",
          expires := some "1822137695" }).2.filter Event.isRemote
      = [.remoteCall (.addCookie
          (jsonDumps (dictSet (locals_to_params
            { name := "foo", value := "bar", url := some "http://example.com",
              expires := some "1822137695" }) "expires" (.int 1822137695))))] :=
  ⟨expiry_integer_first.1 (fun s => .error s) "1822137695" 1822137695 rfl,
   expiry_integer_first.2.1 (fun s => .error s) "tomorrow" rfl,
   expiry_integer_first.2.2 (fun s => .error s) (.ok ⟨"ok"⟩)
     { name := "foo", value := "bar", url := some "http://example.com",
       expires := some "1822137695" } "1822137695" 1822137695 rfl
     (by decide) rfl⟩

/-- C7 counterexample: the empty expires string is neither a valid integer
(Python `int("")` raises `ValueError`, i.e. `pyIntParse "" = none`) nor a
parseable date expression, yet the `if expires:` truthiness gate treats it
as falsy and skips expiry parsing entirely: `add_cookie` raises no error —
the date utility is never consulted — and the `AddCookie` request is sent,
carrying `"expires": ""` in its body. -/
theorem add_cookie_expiry_error_cex :
    pyIntParse "" = none ∧
    Cookie.add_cookie (fun s => .error ("Invalid timestamp " ++ s)) (.ok ⟨"ok"⟩)
        { name := "foo", value := "bar", url := some "http://example.com",
          expires := some "" }
      = (.ok (),
         [.logDebug ("Adding cookie: " ++ jsonDumps (locals_to_params
            { name := "foo", value := "bar", url := some "http://example.com",
              expires := some "" })),
          .channelOpen,
          .remoteCall (.addCookie (jsonDumps (locals_to_params
            { name := "foo", value := "bar", url := some "http://example.com",
              expires := some "" }))),
          .logInfo "ok", .channelClose]) := by
  constructor <;> rfl

/-- C7 (amended): a supplied NON-EMPTY expires string that is neither a
valid integer nor accepted by the date-conversion utility makes
`add_cookie` raise the date utility's error (the integer-parse failure is
swallowed), and no remote request — indeed no side effect at all —
happens. (The empty string, although unparseable by both parsers, is
falsy and bypasses expiry parsing; see the counterexample.) -/
theorem add_cookie_expiry_error :
    ∀ (conv : String → Except String Int) (remote : Except RemoteErr LogResponse)
      (a : AddCookieArgs) (e msg : String),
      a.expires = some e → e ≠ "" → pyIntParse e = none → conv e = .error msg →
      Cookie.add_cookie conv remote a = (.error (.dateError msg), []) := by
  intro conv remote a e msg ha hne hint hconv
  rw [Cookie.add_cookie, ha]
  rw [Cookie.add_cookie_params, if_neg hne]
  rw [Cookie._expiry, hint, hconv]
  rfl

/-- Witness for C7 at a concrete unparseable expiry. -/
theorem add_cookie_expiry_error_witness :
    Cookie.add_cookie (fun s => .error ("Invalid timestamp " ++ s)) (.ok ⟨"ok"⟩)
        { name := "foo", value := "bar", url := some "http://example.com",
          expires := some "never ever" }
      = (.error (.dateError "Invalid timestamp never ever"), []) :=
  add_cookie_expiry_error (fun s => .error ("Invalid timestamp " ++ s)) (.ok ⟨"ok"⟩)
    { name := "foo", value := "bar", url := some "http://example.com",
      expires := some "never ever" }
    "never ever" "Invalid timestamp never ever" rfl (by decide) rfl rfl

/-- C4: the expiry encoding on add composed with the timestamp decoding on
read is the identity on epoch seconds: for every integer `n`, the string
`str(n)` converts to the epoch integer `n`, a record read back with that
`expires` value decodes to a datetime in dictionary mode, and that
datetime's epoch-seconds value is `n`. -/
theorem expires_epoch_roundtrip :
    ∀ (n : Int) (conv : String → Except String Int),
      Cookie._expiry conv (pyStrInt n) = .ok n ∧
      Cookie._cookie_as_dot_dict
          [("name", .str "a"), ("value", .str "b"), ("expires", .int n)]
        = .ok [("name", .plain (.str "a")), ("value", .plain (.str "b")),
               ("expires", .datetime (datetime.fromtimestamp n))] ∧
      (datetime.fromtimestamp n).timestamp = n := by
  intro n conv
  refine ⟨?_, ?_, rfl⟩
  · rw [Cookie._expiry, pyIntParse_pyStrInt]
  · simp [Cookie._cookie_as_dot_dict, mapExcept, Cookie.dotVal, Except.map]

/-- C10: `eat_all_cookies` has the same remote effect as
`delete_all_cookies` — exactly one `DeleteAllCookies` request, identical
outcome — and on success additionally emits an HTML info log and a
warning log. -/
theorem eat_all_cookies_refines_delete :
    ∀ remote : Except RemoteErr LogResponse,
      (Cookie.eat_all_cookies remote).2.filter Event.isRemote
          = [.remoteCall .deleteAllCookies] ∧
      (Cookie.eat_all_cookies remote).2.filter Event.isRemote
          = (Cookie.delete_all_cookies remote).2.filter Event.isRemote ∧
      (Cookie.eat_all_cookies remote).1 = (Cookie.delete_all_cookies remote).1 ∧
      (Cookie.eat_all_cookies remote).2
        = (Cookie.delete_all_cookies remote).2
            ++ (match remote with
                | .ok _ => [.logInfoHtml Cookie.eatAllCookiesHtml,
                            .logWarn "Cookie monster ate all cookies!!"]
                | .error _ => []) := by
  intro remote
  cases remote <;>
    simp [Cookie.eat_all_cookies, Cookie.delete_all_cookies, grpc_call,
      Event.isRemote]

/-- C9: `get_cookies` decides emptiness from the response's `log` field,
not from the parsed body: an empty `log` yields the empty list (and the
"no cookies" message) whatever the body holds, and a non-empty `log` has
the body formatted and returned, even when the body is the empty list. -/
theorem get_cookies_decides_on_log :
    ∀ (log : String) (body : List CookieRecord) (rt : CookieType),
      (log = "" →
        Cookie.get_cookies (.ok ⟨log, body⟩) rt
          = (.ok (.dicts []),
             [.channelOpen, .remoteCall .getCookies, .channelClose,
              .logInfo "No cookies found."])) ∧
      (log ≠ "" →
        (Cookie.get_cookies (.ok ⟨log, body⟩) CookieType.dictionary).1
            = (Cookie._format_cookies_as_dot_dict body).map .dicts ∧
        (Cookie.get_cookies (.ok ⟨log, body⟩) CookieType.string).1
            = (Cookie._format_cookies_as_string body).map .str) := by
  intro log body rt
  constructor
  · intro h
    subst h
    simp [Cookie.get_cookies, Cookie._get_cookies, grpc_call]
  · intro h
    constructor
    · cases hfmt : Cookie._format_cookies_as_dot_dict body <;>
        simp [Cookie.get_cookies, Cookie._get_cookies, grpc_call, h, hfmt,
          Except.map]
    · cases hfmt : Cookie._format_cookies_as_string body <;>
        simp [Cookie.get_cookies, Cookie._get_cookies, grpc_call, h, hfmt,
          Except.map]

/-- Witness for C9: an empty `log` hides a non-empty body; a non-empty
`log` over an empty body formats that empty body (empty list in
dictionary mode, empty string in string mode). -/
theorem get_cookies_decides_on_log_witness :
    Cookie.get_cookies (.ok ⟨"", [[("name", .str "a"), ("value", .str "1")]]⟩)
        CookieType.dictionary
      = (.ok (.dicts []),
         [.channelOpen, .remoteCall .getCookies, .channelClose,
          .logInfo "No cookies found."]) ∧
    (Cookie.get_cookies (.ok ⟨"Cookies(0)", []⟩) CookieType.dictionary).1
      = (Cookie._format_cookies_as_dot_dict []).map .dicts ∧
    (Cookie.get_cookies (.ok ⟨"Cookies(0)", []⟩) CookieType.string).1
      = (Cookie._format_cookies_as_string []).map .str :=
  ⟨(get_cookies_decides_on_log ""
      [[("name", .str "a"), ("value", .str "1")]] CookieType.dictionary).1 rfl,
   ((get_cookies_decides_on_log "Cookies(0)" [] CookieType.dictionary).2
      (by decide)).1,
   ((get_cookies_decides_on_log "Cookies(0)" [] CookieType.dictionary).2
      (by decide)).2⟩

/-- C1 counterexample: a remote response with an empty cookie collection
but a non-empty `log` field makes `get_cookies` return the empty list
WITHOUT logging any "no cookies" message — the only informational message
is "Found cookies: ..." — so the claim's logging clause fails as stated
(the code branches on the `log` field, not on the collection). -/
theorem get_cookies_empty_nonempty_log_cex :
    (Cookie.get_cookies (.ok ⟨"Cookies(0)", []⟩) CookieType.dictionary).2.filter
        Event.isInfo
      = [.logInfo "Found cookies: Cookies(0)"] ∧
    (Cookie.get_cookies (.ok ⟨"Cookies(0)", []⟩) CookieType.dictionary).1
      = .ok (.dicts []) := by
  constructor <;> rfl

/-- C1 (amended): for every `GetCookies` response whose cookie collection
is empty and whose `log` field is empty, `get_cookies` returns the empty
sequence, logs the informational "No cookies found." message, and raises
no error, in either return mode. -/
theorem get_cookies_empty_spec :
    ∀ (resp : GetCookiesResponse) (rt : CookieType),
      resp.body = [] → resp.log = "" →
      Cookie.get_cookies (.ok resp) rt
        = (.ok (.dicts []),
           [.channelOpen, .remoteCall .getCookies, .channelClose,
            .logInfo "No cookies found."]) := by
  intro resp rt hbody hlog
  obtain ⟨log, body⟩ := resp
  simp only at hbody hlog
  subst hbody
  subst hlog
  simp [Cookie.get_cookies, Cookie._get_cookies, grpc_call]

/-- Witness for C1 at the empty response. -/
theorem get_cookies_empty_spec_witness :
    Cookie.get_cookies (.ok ⟨"", []⟩) CookieType.string
      = (.ok (.dicts []),
         [.channelOpen, .remoteCall .getCookies, .channelClose,
          .logInfo "No cookies found."]) :=
  get_cookies_empty_spec ⟨"", []⟩ CookieType.string rfl rfl

theorem hasName_of_nameVal {r : CookieRecord} {v : JsonVal} {target : String}
    (hv : dictGet r "name" = some v) :
    hasName target r = Cookie.nameEq v target := by
  cases v <;> simp [hasName, Cookie.nameEq, hv]

theorem find_cookie_find? (target : String) (rt : CookieType) :
    ∀ (cookies : List CookieRecord),
      (∀ r ∈ cookies, (dictGet r "name").isSome = true) →
      Cookie.find_cookie target rt cookies
        = match cookies.find? (hasName target) with
          | some r => Cookie.render_cookie rt r
          | none =>
            .error (.valueError ("Cookie with name " ++ target ++ " is not found.")) := by
  intro cookies
  induction cookies with
  | nil => intro _; rfl
  | cons c rest ih =>
    intro h
    have hsome := h c (List.mem_cons_self c rest)
    obtain ⟨v, hv⟩ := Option.isSome_iff_exists.mp hsome
    rw [List.find?_cons, hasName_of_nameVal hv]
    cases hq : Cookie.nameEq v target
    · simp only [Cookie.find_cookie, hv, hq, Bool.false_eq_true, if_false,
        cond_false]
      exact ih (fun r hr => h r (List.mem_cons_of_mem c hr))
    · simp [Cookie.find_cookie, hv, hq]

/-- C2: under the data-model invariant that every record carries a `name`
key, `get_cookie` returns the rendering of the first record (in collection
order) whose name value equals the requested name, raises the deterministic
not-found `ValueError` when no record matches, and the match predicate is
exact string equality (no case-folding). -/
theorem get_cookie_first_match_or_not_found :
    ∀ (log : String) (cookies : List CookieRecord) (target : String)
      (rt : CookieType),
      (∀ r ∈ cookies, (dictGet r "name").isSome = true) →
      (∀ r, cookies.find? (hasName target) = some r →
        Cookie.get_cookie (.ok ⟨log, cookies⟩) target rt
          = (Cookie.render_cookie rt r,
             [.channelOpen, .remoteCall .getCookies, .channelClose])) ∧
      (cookies.find? (hasName target) = none →
        Cookie.get_cookie (.ok ⟨log, cookies⟩) target rt
          = (.error (.valueError
               ("Cookie with name " ++ target ++ " is not found.")),
             [.channelOpen, .remoteCall .getCookies, .channelClose])) ∧
      (∀ (r : CookieRecord) (s : String),
        dictGet r "name" = some (.str s) → (hasName target r = true ↔ s = target)) := by
  intro log cookies target rt h
  have hred : Cookie.get_cookie (.ok ⟨log, cookies⟩) target rt
      = (Cookie.find_cookie target rt cookies,
         [.channelOpen, .remoteCall .getCookies, .channelClose]) := by
    simp [Cookie.get_cookie, Cookie._get_cookies, grpc_call]
  refine ⟨?_, ?_, ?_⟩
  · intro r hr
    rw [hred, find_cookie_find? target rt cookies h, hr]
  · intro hr
    rw [hred, find_cookie_find? target rt cookies h, hr]
  · intro r s hr
    simp [hasName, hr]

/-- Witness for C2: two records named `Foobar`; querying `Foobar` returns
the first one's dictionary rendering, querying `foobar` (different case)
and `zzz` fails with the not-found error. -/
theorem get_cookie_first_match_witness :
    Cookie.get_cookie
        (.ok ⟨"lg", [[("name", .str "Foobar"), ("value", .str "Tidii")],
                     [("name", .str "Foobar"), ("value", .str "second")]]⟩)
        "Foobar" CookieType.dictionary
      = (Cookie.render_cookie CookieType.dictionary
           [("name", .str "Foobar"), ("value", .str "Tidii")],
         [.channelOpen, .remoteCall .getCookies, .channelClose]) ∧
    Cookie.get_cookie
        (.ok ⟨"lg", [[("name", .str "Foobar"), ("value", .str "Tidii")],
                     [("name", .str "Foobar"), ("value", .str "second")]]⟩)
        "foobar" CookieType.dictionary
      = (.error (.valueError "Cookie with name foobar is not found."),
         [.channelOpen, .remoteCall .getCookies, .channelClose]) :=
  ⟨((get_cookie_first_match_or_not_found "lg"
      [[("name", .str "Foobar"), ("value", .str "Tidii")],
       [("name", .str "Foobar"), ("value", .str "second")]]
      "Foobar" CookieType.dictionary (by decide)).1
      [("name", .str "Foobar"), ("value", .str "Tidii")] (by decide)),
   ((get_cookie_first_match_or_not_found "lg"
      [[("name", .str "Foobar"), ("value", .str "Tidii")],
       [("name", .str "Foobar"), ("value", .str "second")]]
      "foobar" CookieType.dictionary (by decide)).2.1 (by decide))⟩

/-- C6 counterexample: a call lacking `url` and the `domain`+`path` pair
whose `expires` string fails both parses raises the date error locally and
issues NO remote request at all (empty trace), so "the adapter still sends
the request to the remote service" is false as universally stated. -/
theorem add_cookie_no_validation_cex :
    Cookie.add_cookie (fun s => .error ("Invalid timestamp " ++ s))
        (.error "remote rejected")
        { name := "foo", value := "bar", expires := some "gibberish" }
      = (.error (.dateError "Invalid timestamp gibberish"), []) := by
  rfl

/-- C6 (amended): for every call lacking `url` and lacking the
`domain`+`path` pair whose expiry step succeeds (in particular whenever
`expires` is not supplied), the adapter still sends the `AddCookie`
request and a remote error comes back to the caller unchanged — same
error value, no retry (one request), no suppression, no rewrapping. -/
theorem add_cookie_no_local_validation :
    ∀ (conv : String → Except String Int) (a : AddCookieArgs) (err : RemoteErr),
      a.url = none → (a.domain = none ∨ a.path = none) →
      expiryOk conv a →
      (Cookie.add_cookie conv (.error err) a).1 = .error (.remote err) ∧
      ∃ body, (Cookie.add_cookie conv (.error err) a).2.filter Event.isRemote
          = [.remoteCall (.addCookie body)] := by
  intro conv a err _ _ hexp
  have hsend : ∀ params : CookieRecord,
      (Cookie.add_cookie_send (.error err) params).1 = .error (.remote err) ∧
      (Cookie.add_cookie_send (.error err) params).2.filter Event.isRemote
        = [.remoteCall (.addCookie (jsonDumps params))] := by
    intro params
    simp [Cookie.add_cookie_send, grpc_call, Event.isRemote]
  rw [expiryOk] at hexp
  rcases ha : a.expires with _ | e
  · rw [Cookie.add_cookie, ha, Cookie.add_cookie_params]
    exact ⟨(hsend _).1, _, (hsend _).2⟩
  · rw [ha] at hexp
    rcases hexp with he | ⟨n, hn⟩
    · rw [Cookie.add_cookie, ha, Cookie.add_cookie_params, if_pos he]
      exact ⟨(hsend _).1, _, (hsend _).2⟩
    · rw [Cookie.add_cookie, ha, Cookie.add_cookie_params]
      by_cases he : e = ""
      · rw [if_pos he]
        exact ⟨(hsend _).1, _, (hsend _).2⟩
      · rw [if_neg he, hn]
        exact ⟨(hsend _).1, _, (hsend _).2⟩

/-- Witness for C6: `add_cookie` with only name and value (no url, no
domain, no path) reaches the remote service and surfaces its error. -/
theorem add_cookie_no_local_validation_witness :
    (Cookie.add_cookie (fun s => .error s) (.error "Add cookie failed")
        { name := "foo", value := "bar" }).1
      = .error (.remote "Add cookie failed") ∧
    ∃ body, (Cookie.add_cookie (fun s => .error s) (.error "Add cookie failed")
        { name := "foo", value := "bar" }).2.filter Event.isRemote
      = [.remoteCall (.addCookie body)] :=
  add_cookie_no_local_validation (fun s => .error s)
    { name := "foo", value := "bar" } "Add cookie failed" rfl (Or.inl rfl)
    trivial

/-- C8 counterexample: an `add_cookie` invocation whose expiry string fails
both parses performs no channel event at all — it neither opens a handle
nor issues a request — so "every keyword invocation opens a scoped
remote-channel handle [and] issues exactly one remote request" is false
as universally stated. -/
theorem keyword_channel_discipline_cex :
    (Cookie.add_cookie (fun s => .error ("Invalid date " ++ s)) (.ok ⟨"ok"⟩)
        { name := "foo", value := "bar", url := some "http://example.com",
          expires := some "not a date" }).2.filter Event.isChannel
      = [] ∧
    (Cookie.add_cookie (fun s => .error ("Invalid date " ++ s)) (.ok ⟨"ok"⟩)
        { name := "foo", value := "bar", url := some "http://example.com",
          expires := some "not a date" }).2
      = [] := by
  constructor <;> rfl

/-- C8 (amended): every keyword invocation that reaches its remote phase —
all of `get_cookies`, `get_cookie` and `delete_all_cookies`, and
`add_cookie` whenever its expiry step succeeds — opens one scoped channel
handle, issues exactly one remote request on it, and releases the handle
before returning, on success and on remote error alike; both read
keywords issue a fresh `GetCookies` call on every invocation (nothing is
cached: the keywords are functions of the current remote response only). -/
theorem keyword_channel_discipline :
    (∀ (remote : Except RemoteErr GetCookiesResponse) (rt : CookieType),
        (Cookie.get_cookies remote rt).2.filter Event.isChannel
          = [.channelOpen, .remoteCall .getCookies, .channelClose]) ∧
    (∀ (remote : Except RemoteErr GetCookiesResponse) (name : String)
        (rt : CookieType),
        (Cookie.get_cookie remote name rt).2.filter Event.isChannel
          = [.channelOpen, .remoteCall .getCookies, .channelClose]) ∧
    (∀ (conv : String → Except String Int)
        (remote : Except RemoteErr LogResponse) (a : AddCookieArgs),
        expiryOk conv a →
        ∃ body, (Cookie.add_cookie conv remote a).2.filter Event.isChannel
          = [.channelOpen, .remoteCall (.addCookie body), .channelClose]) ∧
    (∀ (remote : Except RemoteErr LogResponse),
        (Cookie.delete_all_cookies remote).2.filter Event.isChannel
          = [.channelOpen, .remoteCall .deleteAllCookies, .channelClose]) := by
  refine ⟨?_, ?_, ?_, ?_⟩
  · intro remote rt
    rcases remote with e | resp
    · simp [Cookie.get_cookies, Cookie._get_cookies, grpc_call, Event.isChannel]
    · by_cases hlog : resp.log = ""
      · simp [Cookie.get_cookies, Cookie._get_cookies, grpc_call,
          Event.isChannel, hlog]
      · rcases rt with _ | _ <;>
        · rcases hfd : Cookie._format_cookies_as_dot_dict resp.body with e | ds <;>
          rcases hfs : Cookie._format_cookies_as_string resp.body with e2 | s2 <;>
            simp [Cookie.get_cookies, Cookie._get_cookies, grpc_call,
              Event.isChannel, hlog, hfd, hfs]
  · intro remote name rt
    rcases remote with e | resp <;>
      simp [Cookie.get_cookie, Cookie._get_cookies, grpc_call, Event.isChannel]
  · intro conv remote a hexp
    have hsend : ∀ params : CookieRecord,
        (Cookie.add_cookie_send remote params).2.filter Event.isChannel
          = [.channelOpen, .remoteCall (.addCookie (jsonDumps params)),
             .channelClose] := by
      intro params
      rcases remote with e | r <;>
        simp [Cookie.add_cookie_send, grpc_call, Event.isChannel]
    rw [expiryOk] at hexp
    rcases ha : a.expires with _ | e
    · rw [Cookie.add_cookie, ha, Cookie.add_cookie_params]
      exact ⟨_, hsend _⟩
    · rw [ha] at hexp
      rcases hexp with he | ⟨n, hn⟩
      · rw [Cookie.add_cookie, ha, Cookie.add_cookie_params, if_pos he]
        exact ⟨_, hsend _⟩
      · rw [Cookie.add_cookie, ha, Cookie.add_cookie_params]
        by_cases he : e = ""
        · rw [if_pos he]
          exact ⟨_, hsend _⟩
        · rw [if_neg he, hn]
          exact ⟨_, hsend _⟩
  · intro remote
    rcases remote with e | r <;>
      simp [Cookie.delete_all_cookies, grpc_call, Event.isChannel]

/-- Witness for C8 covering a successful read and a failing delete. -/
theorem keyword_channel_discipline_witness :
    (Cookie.get_cookies (.ok ⟨"lg", []⟩) CookieType.dictionary).2.filter
        Event.isChannel
      = [.channelOpen, .remoteCall .getCookies, .channelClose] ∧
    (∃ body, (Cookie.add_cookie (fun s => .error s) (.ok ⟨"ok"⟩)
        { name := "foo", value := "bar" }).2.filter Event.isChannel
      = [.channelOpen, .remoteCall (.addCookie body), .channelClose]) ∧
    (Cookie.delete_all_cookies (.error "boom")).2.filter Event.isChannel
      = [.channelOpen, .remoteCall .deleteAllCookies, .channelClose] :=
  ⟨keyword_channel_discipline.1 (.ok ⟨"lg", []⟩) CookieType.dictionary,
   keyword_channel_discipline.2.2.1 (fun s => .error s) (.ok ⟨"ok"⟩)
     { name := "foo", value := "bar" } trivial,
   keyword_channel_discipline.2.2.2 (.error "boom")⟩

end BrowserCookie
